import Mathlib

/-!
Verification of `jules-scratch/verification/verify_ui_revamp.py`.

The script is one linear procedure, `run_verification`, driving the Playwright
browser-automation library:

```python
def run_verification():
    with sync_playwright() as p:
        browser = p.chromium.launch(headless=True)
        page = browser.new_page()
        try:
            page.goto("http://localhost:8081", timeout=60000)
            expect(page.get_by_text("Nadar")).to_be_visible(timeout=30000)
            print("Capturing Landing Screen...")
            page.screenshot(path="jules-scratch/verification/landing_screen.png")
            print("Landing Screen captured.")
        except Exception as e:
            print(f"An error occurred during Playwright execution: {e}")
        finally:
            browser.close()
            print("Browser closed.")

if __name__ == "__main__":
    run_verification()
```

We embed the procedure shallowly: the external world's response to each
Playwright call is an `Env` (each call either succeeds or raises an exception
with a message), and `run_verification` maps an `Env` to the sequence of
observable events it performs together with its outcome (normal return or a
propagating exception).  External library semantics relevant to the claims,
taken from Playwright's documentation:
  * `page.screenshot` with no `full_page` argument captures only the current
    viewport (`full_page` defaults to `False`), and it creates the missing
    parent directories of the target path before writing the file;
  * exiting the `sync_playwright()` context manager (on any path, normal or
    exceptional) stops the Playwright driver, which terminates every browser
    launched through it.
-/

/-- Result of one external (Playwright) call: it either returns normally or
raises an exception carrying a message.  All exceptions raised by the
Playwright layer derive from Python's `Exception`. -/
inductive StepResult where
  | ok : StepResult
  | exn : String → StepResult
deriving DecidableEq, Repr

/-- The external world's responses to the calls `run_verification` makes, in
program order, plus the abstract image content the page would render at
capture time (used to model the bytes written to the screenshot file). -/
structure Env where
  startPlaywright : StepResult
  launch : StepResult
  newPage : StepResult
  goto : StepResult
  waitVisible : StepResult
  screenshot : StepResult
  pageImage : Nat
deriving DecidableEq, Repr

/-- Observable events of a run, in the order they occur.  `goto` and
`waitVisible` record the timeout (in milliseconds) passed to the call; they are
the only two calls carrying a timeout, i.e. the only suspension points.
`screenshot` records the target path, whether a full-page capture was
requested (`page.screenshot` is called without `full_page`, whose documented
default is `False`), and `some content` when the capture succeeded and wrote
`content`, `none` when the call raised.  `stopPlaywright` is the
context-manager exit, which terminates the driver and every browser it
launched. -/
inductive Event where
  | launch : Bool → Event
  | newPage : Event
  | goto : String → Nat → Event
  | waitVisible : String → Nat → Event
  | stdout : String → Event
  | screenshot : String → Bool → Option Nat → Event
  | closeBrowser : Event
  | stopPlaywright : Event
deriving DecidableEq, Repr

/-- Outcome of `run_verification`: normal return, or an exception with the
given message propagating to the caller. -/
inductive Outcome where
  | returns : Outcome
  | raises : String → Outcome
deriving DecidableEq, Repr

/-- The target URL, from `page.goto("http://localhost:8081", timeout=60000)`. -/
def targetUrl : String := "http://localhost:8081"

/-- The visibility marker text, from `page.get_by_text("Nadar")`. -/
def markerText : String := "Nadar"

/-- The screenshot target path, from
`page.screenshot(path="jules-scratch/verification/landing_screen.png")`. -/
def screenshotPath : String := "jules-scratch/verification/landing_screen.png"

/-- The fixed text the `except` handler prints before the exception message
(the f-string `f"An error occurred during Playwright execution: {e}"`). -/
def handlerMsgHead : String := "An error occurred during Playwright execution: "

/-- The body of the `try` block (source lines 8–18): navigate, wait for the
marker to be visible, print, capture the screenshot, print.  Returns the
events performed and `ok` on normal completion, or `exn m` when the first
failing call raised an exception with message `m` (subsequent statements are
then not executed). -/
def tryBody (env : Env) : List Event × StepResult :=
  match env.goto with
  | StepResult.exn m => ([Event.goto targetUrl 60000], StepResult.exn m)
  | StepResult.ok =>
    match env.waitVisible with
    | StepResult.exn m =>
        ([Event.goto targetUrl 60000,
          Event.waitVisible markerText 30000], StepResult.exn m)
    | StepResult.ok =>
      match env.screenshot with
      | StepResult.exn m =>
          ([Event.goto targetUrl 60000,
            Event.waitVisible markerText 30000,
            Event.stdout "Capturing Landing Screen...",
            Event.screenshot screenshotPath false none], StepResult.exn m)
      | StepResult.ok =>
          ([Event.goto targetUrl 60000,
            Event.waitVisible markerText 30000,
            Event.stdout "Capturing Landing Screen...",
            Event.screenshot screenshotPath false (some env.pageImage),
            Event.stdout "Landing Screen captured."], StepResult.ok)

/-- The procedure `run_verification` (source lines 3–25), mirroring Python:
`sync_playwright().__enter__` failing propagates before anything happens;
`p.chromium.launch(headless=True)` and `browser.new_page()` are *outside* the
`try`, so their exceptions propagate (the context manager's exit still runs,
stopping the driver), and the `finally` block — which has not been entered —
does not run.  Inside the `try`, any exception is caught by
`except Exception as e`, its message printed, and control falls through to the
`finally` block (`browser.close()` then `print("Browser closed.")`), after
which the context manager exits and the function returns normally. -/
def run_verification (env : Env) : List Event × Outcome :=
  match env.startPlaywright with
  | StepResult.exn m => ([], Outcome.raises m)
  | StepResult.ok =>
    match env.launch with
    | StepResult.exn m =>
        ([Event.launch true, Event.stopPlaywright], Outcome.raises m)
    | StepResult.ok =>
      match env.newPage with
      | StepResult.exn m =>
          ([Event.launch true, Event.newPage, Event.stopPlaywright],
           Outcome.raises m)
      | StepResult.ok =>
        match tryBody env with
        | (t, StepResult.ok) =>
            ([Event.launch true, Event.newPage] ++ t ++
               [Event.closeBrowser, Event.stdout "Browser closed.",
                Event.stopPlaywright],
             Outcome.returns)
        | (t, StepResult.exn m) =>
            ([Event.launch true, Event.newPage] ++ t ++
               [Event.stdout (handlerMsgHead ++ m),
                Event.closeBrowser, Event.stdout "Browser closed.",
                Event.stopPlaywright],
             Outcome.returns)

/-- The process exit status when the script runs as the main program
(`if __name__ == "__main__": run_verification()`): 0 on normal return, 1 when
an uncaught exception propagates (Python terminates with status 1). -/
def mainExitCode (env : Env) : Nat :=
  match (run_verification env).2 with
  | Outcome.returns => 0
  | Outcome.raises _ => 1

/-- Whether a browser process is still running after the given event sequence:
a launch starts one; `browser.close()` terminates it, and so does stopping the
Playwright driver (the context-manager exit), which kills every browser it
launched. -/
def browserRunningAfter (t : List Event) : Bool :=
  t.foldl
    (fun b e =>
      match e with
      | Event.launch _ => true
      | Event.closeBrowser => false
      | Event.stopPlaywright => false
      | _ => b)
    false

/-- A minimal filesystem: files as path–content pairs, plus the set of
existing directories. -/
structure FS where
  files : List (String × Nat)
  dirs : List String
deriving DecidableEq, Repr

/-- Overwrite-or-create a file: any existing entries at the path are replaced
by the new content. -/
def setFile (path : String) (content : Nat) (files : List (String × Nat)) :
    List (String × Nat) :=
  (path, content) :: files.filter (fun kv => !(kv.1 == path))

/-- The content at a path, when a file exists there. -/
def lookupFile (path : String) (files : List (String × Nat)) : Option Nat :=
  (files.find? (fun kv => kv.1 == path)).map Prod.snd

/-- Number of file entries at a path. -/
def countFile (path : String) (files : List (String × Nat)) : Nat :=
  files.countP (fun kv => kv.1 == path)

/-- Split a character list on the separator character, like
`String.splitOn` with separator "/" (structural recursion, so that
everything evaluates by kernel reduction). -/
def splitSlash : List Char → List (List Char)
  | [] => [[]]
  | c :: rest =>
    let r := splitSlash rest
    if c = '/' then [] :: r
    else
      match r with
      | [] => [[c]]
      | h :: t => (c :: h) :: t

/-- Join character-list path components with the separator character. -/
def joinParts : List (List Char) → List Char
  | [] => []
  | [p] => p
  | p :: ps => p ++ '/' :: joinParts ps

/-- The proper ancestor directories of a path, shortest first:
`parentDirs "a/b/c.png" = ["a", "a/b"]`. -/
def parentDirs (path : String) : List String :=
  let parts := splitSlash path.data
  (List.range (parts.length - 1)).map
    (fun i => String.mk (joinParts (parts.take (i + 1))))

/-- Effect of one event on the filesystem: a successful screenshot creates the
missing parent directories of its path and writes (overwriting) the file;
no other event touches the filesystem. -/
def applyEvent (fs : FS) : Event → FS
  | Event.screenshot path _ (some content) =>
      { files := setFile path content fs.files,
        dirs := fs.dirs ++ (parentDirs path).filter (fun d => !(fs.dirs.contains d)) }
  | _ => fs

/-- The filesystem after running `run_verification` in environment `env`,
starting from `fs`. -/
def runFS (env : Env) (fs : FS) : FS :=
  (run_verification env).1.foldl applyEvent fs

/-- All six external calls succeed: the happy path. -/
def allOk (env : Env) : Prop :=
  env.startPlaywright = StepResult.ok ∧ env.launch = StepResult.ok ∧
  env.newPage = StepResult.ok ∧ env.goto = StepResult.ok ∧
  env.waitVisible = StepResult.ok ∧ env.screenshot = StepResult.ok

instance (env : Env) : Decidable (allOk env) := by
  unfold allOk; infer_instance

/-- Event shape check: every navigation carries the fixed URL and the 60000 ms
timeout, every visibility wait carries the marker text and the 30000 ms
timeout. -/
def stepShapeOk : Event → Bool
  | Event.goto u ms => u == targetUrl && ms == 60000
  | Event.waitVisible s ms => s == markerText && ms == 30000
  | _ => true

/-- Number of navigation calls in a trace. -/
def countGoto (t : List Event) : Nat :=
  t.countP (fun e => match e with | Event.goto _ _ => true | _ => false)

/-- Number of visibility-wait calls in a trace. -/
def countWait (t : List Event) : Nat :=
  t.countP (fun e => match e with | Event.waitVisible _ _ => true | _ => false)

/-- Number of screenshot calls in a trace. -/
def countShot (t : List Event) : Nat :=
  t.countP (fun e => match e with | Event.screenshot _ _ _ => true | _ => false)

/-- Suspension points: the calls that carry a timeout and may block. -/
def isSuspension : Event → Bool
  | Event.goto _ _ => true
  | Event.waitVisible _ _ => true
  | _ => false

/-- Whether a stdout line is the `except` handler's diagnostic (it always
starts with `handlerMsgHead`). -/
def isErrorLine : Event → Bool
  | Event.stdout s => s.take handlerMsgHead.length == handlerMsgHead
  | _ => false

/-- Whether the `except` handler's diagnostic appears in a trace. -/
def errorPrinted (t : List Event) : Bool := t.any isErrorLine

/-- Whether a trace contains a full-page screenshot capture. -/
def isFullPageShot : Event → Bool
  | Event.screenshot _ true _ => true
  | _ => false

/-- Whether a trace contains any screenshot capture. -/
def isShot : Event → Bool
  | Event.screenshot _ _ _ => true
  | _ => false

/-- An environment in which every external call succeeds. -/
def happyEnv : Env :=
  { startPlaywright := StepResult.ok, launch := StepResult.ok,
    newPage := StepResult.ok, goto := StepResult.ok,
    waitVisible := StepResult.ok, screenshot := StepResult.ok, pageImage := 0 }

/-- An environment in which navigation raises (e.g. unreachable server). -/
def gotoFailEnv : Env :=
  { happyEnv with goto := StepResult.exn "Timeout 60000ms exceeded" }

/-- An environment in which the visibility wait raises (marker never shown). -/
def waitFailEnv : Env :=
  { happyEnv with waitVisible := StepResult.exn "Timeout 30000ms exceeded" }

/-- An environment in which the screenshot capture raises. -/
def shotFailEnv : Env :=
  { happyEnv with screenshot := StepResult.exn "disk full" }

/-- An environment in which the browser launch raises. -/
def launchFailEnv : Env :=
  { happyEnv with launch := StepResult.exn "executable not found" }

/-- An environment in which opening the new page raises. -/
def newPageFailEnv : Env :=
  { happyEnv with newPage := StepResult.exn "browser has crashed" }

/-- The empty filesystem. -/
def emptyFS : FS := { files := [], dirs := [] }

/-! ### Helper lemmas -/

theorem string_length_append (a b : String) :
    (a ++ b).length = a.length + b.length := by
  cases a with
  | mk da =>
    cases b with
    | mk db => simp [String.length, String.append]

theorem captured_ne_handler_msg (m : String) :
    "Landing Screen captured." ≠ handlerMsgHead ++ m := by
  intro h
  have hlen := congrArg String.length h
  rw [string_length_append] at hlen
  have hlt : ("Landing Screen captured.").length < handlerMsgHead.length := by
    decide
  omega

theorem countP_filter_not_self (p : String) (l : List (String × Nat)) :
    (l.filter (fun kv => !(kv.1 == p))).countP (fun kv => kv.1 == p) = 0 := by
  induction l with
  | nil => rfl
  | cons kv l ih =>
    by_cases h : kv.1 == p
    · simp [List.filter_cons, h, ih]
    · simp only [List.filter_cons]
      rw [if_pos]
      · rw [List.countP_cons]
        simp [h, ih]
      · simp [h]

theorem lookupFile_setFile (p : String) (c : Nat) (l : List (String × Nat)) :
    lookupFile p (setFile p c l) = some c := by
  simp [lookupFile, setFile, List.find?_cons]

theorem countFile_setFile (p : String) (c : Nat) (l : List (String × Nat)) :
    countFile p (setFile p c l) = 1 := by
  simp only [countFile, setFile, List.countP_cons]
  rw [countP_filter_not_self]
  simp

theorem mem_append_filter_of_mem (d : String) (ds ps : List String)
    (h : d ∈ ps) : d ∈ ds ++ ps.filter (fun x => !(ds.contains x)) := by
  by_cases hd : d ∈ ds
  · exact List.mem_append_left _ hd
  · refine List.mem_append_right _ ?_
    refine List.mem_filter.mpr ⟨h, ?_⟩
    simp [List.elem_eq_mem, hd]

/-! ### Claim theorems -/

/-- C1: every exception raised during the navigation call, the visibility
wait, or the screenshot capture inside `run_verification` is caught by the
single generic `except Exception` handler: the run returns normally (the
exception is not re-raised), the handler's message describing the exception is
printed to standard output, and no step is retried (each of navigation, wait
and screenshot occurs at most once in the run). -/
theorem try_failure_caught (env : Env) (m : String)
    (hs : env.startPlaywright = StepResult.ok)
    (hl : env.launch = StepResult.ok)
    (hn : env.newPage = StepResult.ok)
    (ht : (tryBody env).2 = StepResult.exn m) :
    (run_verification env).2 = Outcome.returns ∧
    Event.stdout (handlerMsgHead ++ m) ∈ (run_verification env).1 ∧
    countGoto (run_verification env).1 ≤ 1 ∧
    countWait (run_verification env).1 ≤ 1 ∧
    countShot (run_verification env).1 ≤ 1 := by
  obtain ⟨s, l, n, g, w, sc, img⟩ := env
  simp only at hs hl hn
  subst hs hl hn
  cases g with
  | exn mg =>
    simp only [tryBody] at ht
    cases ht
    exact ⟨rfl, by simp [run_verification, tryBody], Nat.le_refl 1,
      Nat.zero_le 1, Nat.zero_le 1⟩
  | ok =>
    cases w with
    | exn mw =>
      simp only [tryBody] at ht
      cases ht
      exact ⟨rfl, by simp [run_verification, tryBody], Nat.le_refl 1,
        Nat.le_refl 1, Nat.zero_le 1⟩
    | ok =>
      cases sc with
      | exn msc =>
        simp only [tryBody] at ht
        cases ht
        exact ⟨rfl, by simp [run_verification, tryBody], Nat.le_refl 1,
          Nat.le_refl 1, Nat.le_refl 1⟩
      | ok => simp [tryBody] at ht

/-- Witness for C1 at a concrete environment in which the navigation call
raises a timeout. -/
theorem try_failure_caught_witness :
    (run_verification gotoFailEnv).2 = Outcome.returns ∧
    Event.stdout (handlerMsgHead ++ "Timeout 60000ms exceeded") ∈
      (run_verification gotoFailEnv).1 ∧
    countGoto (run_verification gotoFailEnv).1 ≤ 1 ∧
    countWait (run_verification gotoFailEnv).1 ≤ 1 ∧
    countShot (run_verification gotoFailEnv).1 ≤ 1 :=
  try_failure_caught gotoFailEnv "Timeout 60000ms exceeded" rfl rfl rfl rfl

/-- C2: on every execution path of `run_verification` — success, caught
failure inside the `try` block, or a propagating exception from launch or
new-page — no browser process remains running when the procedure ends: either
`browser.close()` ran in the `finally` block, or the context-manager exit
stopped the Playwright driver, terminating every browser it launched. -/
theorem no_browser_survives (env : Env) :
    browserRunningAfter (run_verification env).1 = false := by
  obtain ⟨s, l, n, g, w, sc, img⟩ := env
  cases s <;> cases l <;> cases n <;> cases g <;> cases w <;> cases sc <;> rfl

/-- Witness for C2 at the concrete happy-path environment. -/
theorem no_browser_survives_witness :
    browserRunningAfter (run_verification happyEnv).1 = false :=
  no_browser_survives happyEnv

/-- C3: `run_verification` performs its steps in a fixed linear order: launch
headless, open a page, navigate to the target URL, wait for the marker text to
be visible, then capture the screenshot (between the two progress prints),
followed by unconditional cleanup; and a screenshot capture is attempted only
on runs in which both the navigation and the visibility wait succeeded. -/
theorem fixed_linear_order (env : Env) :
    (allOk env →
      (run_verification env).1 =
        [Event.launch true, Event.newPage, Event.goto targetUrl 60000,
         Event.waitVisible markerText 30000,
         Event.stdout "Capturing Landing Screen...",
         Event.screenshot screenshotPath false (some env.pageImage),
         Event.stdout "Landing Screen captured.", Event.closeBrowser,
         Event.stdout "Browser closed.", Event.stopPlaywright]) ∧
    (∀ p fp r, Event.screenshot p fp r ∈ (run_verification env).1 →
      env.goto = StepResult.ok ∧ env.waitVisible = StepResult.ok) := by
  obtain ⟨s, l, n, g, w, sc, img⟩ := env
  constructor
  · rintro ⟨hs, hl, hn, hg, hw, hsc⟩
    simp only at hs hl hn hg hw hsc
    subst hs hl hn hg hw hsc
    rfl
  · intro p fp r hmem
    cases s <;> cases l <;> cases n <;> cases g <;> cases w <;> cases sc <;>
      simp [run_verification, tryBody] at hmem ⊢

/-- Witness for C3: the happy-path trace at a concrete environment, and the
screenshot-implies-wait-succeeded direction instantiated there. -/
theorem fixed_linear_order_witness :
    (run_verification happyEnv).1 =
      [Event.launch true, Event.newPage, Event.goto targetUrl 60000,
       Event.waitVisible markerText 30000,
       Event.stdout "Capturing Landing Screen...",
       Event.screenshot screenshotPath false (some 0),
       Event.stdout "Landing Screen captured.", Event.closeBrowser,
       Event.stdout "Browser closed.", Event.stopPlaywright] ∧
    (happyEnv.goto = StepResult.ok ∧ happyEnv.waitVisible = StepResult.ok) :=
  ⟨(fixed_linear_order happyEnv).1 ⟨rfl, rfl, rfl, rfl, rfl, rfl⟩,
   (fixed_linear_order happyEnv).2 screenshotPath false (some 0) (by decide)⟩

/-- C4 counterexample: on the happy path the code does capture a screenshot,
but never a full-page one — `page.screenshot` is called without `full_page`,
whose default is `False`, so only the viewport is captured, contradicting the
claim that the entire page content is captured. -/
theorem full_page_capture_cex :
    (run_verification happyEnv).1.any isShot = true ∧
    (run_verification happyEnv).1.any isFullPageShot = false := by
  decide

/-- C4 (amended): when the visibility wait succeeds, `run_verification`
captures a viewport screenshot (`full_page` is not passed and defaults to
`False`, so the capture is not of the entire page content) and writes it to
the fixed relative path `jules-scratch/verification/landing_screen.png`,
creating the parent directories of that path if they do not already exist. -/
theorem screenshot_viewport_write (env : Env) (fs : FS) (h : allOk env) :
    Event.screenshot screenshotPath false (some env.pageImage) ∈
      (run_verification env).1 ∧
    lookupFile screenshotPath (runFS env fs).files = some env.pageImage ∧
    ∀ d ∈ parentDirs screenshotPath, d ∈ (runFS env fs).dirs := by
  obtain ⟨s, l, n, g, w, sc, img⟩ := env
  obtain ⟨hs, hl, hn, hg, hw, hsc⟩ := h
  simp only at hs hl hn hg hw hsc
  subst hs hl hn hg hw hsc
  refine ⟨by simp [run_verification, tryBody], ?_, ?_⟩
  · have hfs : runFS ⟨StepResult.ok, StepResult.ok, StepResult.ok,
        StepResult.ok, StepResult.ok, StepResult.ok, img⟩ fs =
        { files := setFile screenshotPath img fs.files,
          dirs := fs.dirs ++ (parentDirs screenshotPath).filter
            (fun d => !(fs.dirs.contains d)) } := rfl
    rw [hfs]
    exact lookupFile_setFile screenshotPath img fs.files
  · intro d hd
    have hfs : runFS ⟨StepResult.ok, StepResult.ok, StepResult.ok,
        StepResult.ok, StepResult.ok, StepResult.ok, img⟩ fs =
        { files := setFile screenshotPath img fs.files,
          dirs := fs.dirs ++ (parentDirs screenshotPath).filter
            (fun d => !(fs.dirs.contains d)) } := rfl
    rw [hfs]
    exact mem_append_filter_of_mem d fs.dirs (parentDirs screenshotPath) hd

/-- Witness for C4 (amended) at the happy-path environment and the empty
filesystem, with the parent-directory clause instantiated at the deepest
parent directory of the screenshot path. -/
theorem screenshot_viewport_write_witness :
    Event.screenshot screenshotPath false (some 0) ∈
      (run_verification happyEnv).1 ∧
    lookupFile screenshotPath (runFS happyEnv emptyFS).files = some 0 ∧
    "jules-scratch/verification" ∈ (runFS happyEnv emptyFS).dirs :=
  ⟨(screenshot_viewport_write happyEnv emptyFS (by decide)).1,
   (screenshot_viewport_write happyEnv emptyFS (by decide)).2.1,
   (screenshot_viewport_write happyEnv emptyFS (by decide)).2.2
     "jules-scratch/verification" (by decide)⟩

/-- C5: in every run, every navigation event targets
`http://localhost:8081` with a 60000 ms (60 s) upper bound and every
visibility-wait event targets the text "Nadar" with a 30000 ms (30 s) upper
bound; navigation and wait each occur at most once (a timeout leads to
failure, never a retry), and the suspension points (the only timeout-carrying
calls) number at most two. -/
theorem timeout_bounds (env : Env) :
    (run_verification env).1.all stepShapeOk = true ∧
    countGoto (run_verification env).1 ≤ 1 ∧
    countWait (run_verification env).1 ≤ 1 ∧
    (run_verification env).1.countP isSuspension ≤ 2 := by
  obtain ⟨s, l, n, g, w, sc, img⟩ := env
  cases s <;> cases l <;> cases n <;> cases g <;> cases w <;> cases sc <;>
    refine ⟨rfl, ?_, ?_, ?_⟩ <;>
    first
      | exact Nat.zero_le _
      | exact Nat.le_refl _
      | exact Nat.le_succ_of_le (Nat.le_refl _)

/-- Witness for C5 at the concrete happy-path environment. -/
theorem timeout_bounds_witness :
    (run_verification happyEnv).1.all stepShapeOk = true ∧
    countGoto (run_verification happyEnv).1 ≤ 1 ∧
    countWait (run_verification happyEnv).1 ≤ 1 ∧
    (run_verification happyEnv).1.countP isSuspension ≤ 2 :=
  timeout_bounds happyEnv

/-- C6: whenever the script runs as the main program and reaches the `try`
block (the happy path or any internal verification failure — unreachable
server, navigation timeout, element never visible, screenshot failure), the
process exit status is 0: the error path is swallowed and never sets a
non-zero status. -/
theorem exit_status_zero (env : Env)
    (hs : env.startPlaywright = StepResult.ok)
    (hl : env.launch = StepResult.ok)
    (hn : env.newPage = StepResult.ok) :
    mainExitCode env = 0 := by
  obtain ⟨s, l, n, g, w, sc, img⟩ := env
  simp only at hs hl hn
  subst hs hl hn
  cases g <;> cases w <;> cases sc <;> rfl

/-- Witness for C6: exit status 0 on the happy path and in each of the three
internal-failure scenarios (navigation fails, visibility wait fails,
screenshot capture fails). -/
theorem exit_status_zero_witness :
    mainExitCode happyEnv = 0 ∧ mainExitCode gotoFailEnv = 0 ∧
    mainExitCode waitFailEnv = 0 ∧ mainExitCode shotFailEnv = 0 :=
  ⟨exit_status_zero happyEnv rfl rfl rfl,
   exit_status_zero gotoFailEnv rfl rfl rfl,
   exit_status_zero waitFailEnv rfl rfl rfl,
   exit_status_zero shotFailEnv rfl rfl rfl⟩

/-- C7: an exception raised by the browser launch or by the new-page creation
(both of which precede the `try` block) is not caught: it propagates to the
caller, the main program terminates with a non-zero exit status, and the
`except` handler's diagnostic message is never printed. -/
theorem prelaunch_failure_propagates (env : Env) (m : String)
    (hs : env.startPlaywright = StepResult.ok)
    (h : env.launch = StepResult.exn m ∨
      (env.launch = StepResult.ok ∧ env.newPage = StepResult.exn m)) :
    (run_verification env).2 = Outcome.raises m ∧
    mainExitCode env ≠ 0 ∧
    errorPrinted (run_verification env).1 = false := by
  obtain ⟨s, l, n, g, w, sc, img⟩ := env
  simp only at hs
  subst hs
  rcases h with hl | ⟨hl, hn⟩
  · simp only at hl
    subst hl
    exact ⟨rfl, Nat.one_ne_zero, rfl⟩
  · simp only at hl hn
    subst hl hn
    exact ⟨rfl, Nat.one_ne_zero, rfl⟩

/-- Witness for C7 at concrete environments in which the launch raises, and in
which the new-page creation raises. -/
theorem prelaunch_failure_propagates_witness :
    ((run_verification launchFailEnv).2 =
        Outcome.raises "executable not found" ∧
      mainExitCode launchFailEnv ≠ 0 ∧
      errorPrinted (run_verification launchFailEnv).1 = false) ∧
    ((run_verification newPageFailEnv).2 =
        Outcome.raises "browser has crashed" ∧
      mainExitCode newPageFailEnv ≠ 0 ∧
      errorPrinted (run_verification newPageFailEnv).1 = false) :=
  ⟨prelaunch_failure_propagates launchFailEnv "executable not found" rfl
      (Or.inl rfl),
   prelaunch_failure_propagates newPageFailEnv "browser has crashed" rfl
      (Or.inr ⟨rfl, rfl⟩)⟩

/-- C8: when the navigation or the visibility wait fails, the screenshot
capture is never invoked, the filesystem is left unchanged (no screenshot file
is produced), and the handler's message describing the exception is printed to
standard output. -/
theorem nav_or_wait_failure_no_screenshot (env : Env) (m : String) (fs : FS)
    (hs : env.startPlaywright = StepResult.ok)
    (hl : env.launch = StepResult.ok)
    (hn : env.newPage = StepResult.ok)
    (h : env.goto = StepResult.exn m ∨
      (env.goto = StepResult.ok ∧ env.waitVisible = StepResult.exn m)) :
    countShot (run_verification env).1 = 0 ∧
    runFS env fs = fs ∧
    Event.stdout (handlerMsgHead ++ m) ∈ (run_verification env).1 := by
  obtain ⟨s, l, n, g, w, sc, img⟩ := env
  simp only at hs hl hn
  subst hs hl hn
  rcases h with hg | ⟨hg, hw⟩
  · simp only at hg
    subst hg
    exact ⟨rfl, rfl, by simp [run_verification, tryBody]⟩
  · simp only at hg hw
    subst hg hw
    exact ⟨rfl, rfl, by simp [run_verification, tryBody]⟩

/-- Witness for C8 at a concrete environment in which the visibility wait
times out, starting from the empty filesystem. -/
theorem nav_or_wait_failure_no_screenshot_witness :
    countShot (run_verification waitFailEnv).1 = 0 ∧
    runFS waitFailEnv emptyFS = emptyFS ∧
    Event.stdout (handlerMsgHead ++ "Timeout 30000ms exceeded") ∈
      (run_verification waitFailEnv).1 :=
  nav_or_wait_failure_no_screenshot waitFailEnv "Timeout 30000ms exceeded"
    emptyFS rfl rfl rfl (Or.inr ⟨rfl, rfl⟩)

/-- C9: on the successful path the progress message
"Capturing Landing Screen..." is printed immediately before the screenshot
capture and "Landing Screen captured." immediately after it (the three events
are adjacent in the trace); when the capture itself raises, the before-message
has been printed but the after-message never is. -/
theorem progress_prints_around_capture (env : Env) :
    (allOk env →
      (run_verification env).1 =
        [Event.launch true, Event.newPage, Event.goto targetUrl 60000,
         Event.waitVisible markerText 30000] ++
        [Event.stdout "Capturing Landing Screen...",
         Event.screenshot screenshotPath false (some env.pageImage),
         Event.stdout "Landing Screen captured."] ++
        [Event.closeBrowser, Event.stdout "Browser closed.",
         Event.stopPlaywright]) ∧
    (∀ m, env.screenshot = StepResult.exn m →
      env.startPlaywright = StepResult.ok → env.launch = StepResult.ok →
      env.newPage = StepResult.ok → env.goto = StepResult.ok →
      env.waitVisible = StepResult.ok →
      Event.stdout "Capturing Landing Screen..." ∈ (run_verification env).1 ∧
      Event.stdout "Landing Screen captured." ∉ (run_verification env).1) := by
  obtain ⟨s, l, n, g, w, sc, img⟩ := env
  constructor
  · rintro ⟨hs, hl, hn, hg, hw, hsc⟩
    simp only at hs hl hn hg hw hsc
    subst hs hl hn hg hw hsc
    rfl
  · intro m hsc hs hl hn hg hw
    simp only at hs hl hn hg hw hsc
    subst hs hl hn hg hw hsc
    constructor
    · simp [run_verification, tryBody]
    · intro hmem
      simp [run_verification, tryBody] at hmem
      exact captured_ne_handler_msg m hmem

/-- Witness for C9: the happy-path adjacency at a concrete environment, and
the before-without-after behavior at a concrete environment in which the
capture raises. -/
theorem progress_prints_around_capture_witness :
    (run_verification happyEnv).1 =
      [Event.launch true, Event.newPage, Event.goto targetUrl 60000,
       Event.waitVisible markerText 30000] ++
      [Event.stdout "Capturing Landing Screen...",
       Event.screenshot screenshotPath false (some 0),
       Event.stdout "Landing Screen captured."] ++
      [Event.closeBrowser, Event.stdout "Browser closed.",
       Event.stopPlaywright] ∧
    (Event.stdout "Capturing Landing Screen..." ∈
        (run_verification shotFailEnv).1 ∧
      Event.stdout "Landing Screen captured." ∉
        (run_verification shotFailEnv).1) :=
  ⟨(progress_prints_around_capture happyEnv).1 ⟨rfl, rfl, rfl, rfl, rfl, rfl⟩,
   (progress_prints_around_capture shotFailEnv).2 "disk full" rfl rfl rfl rfl
      rfl rfl⟩

/-- C10: running `run_verification` twice in a row on the happy path attempts
a screenshot write to the same fixed path in both runs, overwriting any
existing file: starting from any filesystem, afterwards exactly one file entry
exists at `jules-scratch/verification/landing_screen.png` and it holds the
content captured by the second (latest) run. -/
theorem repeated_runs_single_file (e1 e2 : Env) (fs : FS)
    (h1 : allOk e1) (h2 : allOk e2) :
    Event.screenshot screenshotPath false (some e1.pageImage) ∈
      (run_verification e1).1 ∧
    Event.screenshot screenshotPath false (some e2.pageImage) ∈
      (run_verification e2).1 ∧
    lookupFile screenshotPath (runFS e2 (runFS e1 fs)).files =
      some e2.pageImage ∧
    countFile screenshotPath (runFS e2 (runFS e1 fs)).files = 1 := by
  obtain ⟨s1, l1, n1, g1, w1, sc1, img1⟩ := e1
  obtain ⟨s2, l2, n2, g2, w2, sc2, img2⟩ := e2
  obtain ⟨hs1, hl1, hn1, hg1, hw1, hsc1⟩ := h1
  obtain ⟨hs2, hl2, hn2, hg2, hw2, hsc2⟩ := h2
  simp only at hs1 hl1 hn1 hg1 hw1 hsc1 hs2 hl2 hn2 hg2 hw2 hsc2
  subst hs1 hl1 hn1 hg1 hw1 hsc1 hs2 hl2 hn2 hg2 hw2 hsc2
  have key : ∀ (img : Nat) (fsa : FS),
      runFS ⟨StepResult.ok, StepResult.ok, StepResult.ok, StepResult.ok,
        StepResult.ok, StepResult.ok, img⟩ fsa =
      { files := setFile screenshotPath img fsa.files,
        dirs := fsa.dirs ++ (parentDirs screenshotPath).filter
          (fun d => !(fsa.dirs.contains d)) } :=
    fun img fsa => rfl
  refine ⟨by simp [run_verification, tryBody],
    by simp [run_verification, tryBody], ?_, ?_⟩
  · rw [key, key]
    exact lookupFile_setFile screenshotPath img2 _
  · rw [key, key]
    exact countFile_setFile screenshotPath img2 _

/-- Witness for C10 at concrete happy-path environments with distinct page
contents, starting from the empty filesystem. -/
theorem repeated_runs_single_file_witness :
    Event.screenshot screenshotPath false (some 0) ∈
      (run_verification happyEnv).1 ∧
    Event.screenshot screenshotPath false (some 7) ∈
      (run_verification { happyEnv with pageImage := 7 }).1 ∧
    lookupFile screenshotPath
      (runFS { happyEnv with pageImage := 7 } (runFS happyEnv emptyFS)).files =
      some 7 ∧
    countFile screenshotPath
      (runFS { happyEnv with pageImage := 7 } (runFS happyEnv emptyFS)).files =
      1 :=
  repeated_runs_single_file happyEnv { happyEnv with pageImage := 7 } emptyFS
    (by decide) (by decide)
